import Mathlib

/-!
Verification of the rivapi request-orchestration layer.

The definitions below are a shallow embedding of the Python sources under
`src/rivapi/`: timestamps are modelled as integers (UTC instants at day
granularity where only ordering and day arithmetic matter), pandas
DataFrames are reduced to the columns the code actually touches, fallible
code returns `Except PyExc`, and every outbound network request made by a
code path is recorded explicitly (as a count or as the list of issued
date ranges) so that claims of the form "no network call happens" are
statable.
-/

set_option autoImplicit false

namespace Rivapi

/-- Python exceptions that the embedded code can raise, at the granularity
the embedding needs.  `requestException` stands for
`requests.exceptions.RequestException`, the only exception class caught by
the retry decorator. -/
inductive PyExc where
  | valueError (msg : String)
  | typeError (msg : String)
  | fileExistsError (msg : String)
  | attributeError (msg : String)
  | unboundLocalError (msg : String)
  | runtimeError (msg : String)
  | requestException
  deriving DecidableEq, Repr

/-- Modelled from the spec: the process-wide settings object exposing
`rate_limit`, `retries` and `backoff` (section 6 of the spec: "a
process-wide settings object {rate_limit, retries, backoff}").  The
`rivapi.config` module imported by `decorators.py` is not part of the
sources; `cli.py` shows it is a plain mutable attribute holder
(`settings.rate_limit = rate_limit` etc.), which is what this record is. -/
structure Settings where
  rate_limit : ℚ
  retries : ℕ
  backoff : ℚ
  deriving DecidableEq, Repr

/-- Python `a or b` for an optional numeric `a`: `None` and `0` are falsy,
so they fall through to `b`.  Embeds the expression
`_calls_per_second or settings.rate_limit` in `decorators.rate_limited`. -/
def pyOr (a : Option ℚ) (b : ℚ) : ℚ :=
  match a with
  | none => b
  | some x => if x = 0 then b else x

/-! Section: `decorators.rate_limited`

```
def rate_limited(_calls_per_second=None):
    def decorator(func):
        last_called = [0.0]
        interval = 1.0 / (_calls_per_second or settings.rate_limit)
        @wraps(func)
        def wrapper(*args, **kwargs):
            nonlocal interval
            now = time.time()
            elapsed = now - last_called[0]
            wait = interval - elapsed
            if wait > 0:
                time.sleep(wait)
            last_called[0] = time.time()
            return func(*args, **kwargs)
        return wrapper
    return decorator
```

`interval` is computed once, when `decorator(func)` runs (decoration
time); the `nonlocal interval` declaration in `wrapper` is dead, since
`wrapper` never assigns `interval`, and `wrapper` contains no other
reference to `settings`.  The wrapper model therefore takes the
decoration-time `interval` value as a parameter and takes no settings
argument at all. -/

/-- State of one limiter closure: the `last_called` cell. -/
structure RLState where
  last : ℚ
  deriving DecidableEq, Repr

/-- Embeds `last_called = [0.0]`, set up at decoration time. -/
def rateLimitedInit : RLState := ⟨0⟩

/-- The `interval` captured by the decorator closure at decoration time. -/
def rateLimitedInterval (callsPerSecond : Option ℚ) (s : Settings) : ℚ :=
  1 / pyOr callsPerSecond s.rate_limit

/-- One invocation of `wrapper`, entered at wall-clock time `now`: returns
the time at which `func` is actually invoked (after the enforced sleep, if
any) together with the updated `last_called` cell.  Sleeping is idealised
as exact: after `time.sleep(wait)` the clock reads `now + wait`. -/
def rateLimitedCall (interval : ℚ) (st : RLState) (now : ℚ) : ℚ × RLState :=
  let elapsed := now - st.last
  let wait := interval - elapsed
  let t := if 0 < wait then now + wait else now
  (t, ⟨t⟩)

/-! Section: `decorators.retry_on_failure`

```
def retry_on_failure():
    def decorator(func):
        @wraps(func)
        def wrapper(*args, **kwargs):
            for attempt in range(settings.retries):
                try:
                    return func(*args, **kwargs)
                except (requests.exceptions.RequestException,) as e:
                    if attempt < settings.retries - 1:
                        wait = settings.backoff * (2 ** attempt)
                        print(...)
                        time.sleep(wait)
                    else:
                        raise
        return wrapper
    return decorator
```

The wrapped operation is modelled as a function from the attempt index to
that attempt's outcome (`Except PyExc`).  A wrapper invocation yields the
call result, the list of back-off sleep durations performed, and the
number of times the wrapped operation was invoked. -/

/-- Exceptions caught by `except (requests.exceptions.RequestException,)`. -/
def isTransient : PyExc → Bool
  | .requestException => true
  | _ => false

/-- Result of one invocation of the retry wrapper: the wrapped value, or a
propagated exception, or the implicit `None` returned when the `for` loop
finishes without any attempt returning (only possible when `retries = 0`,
since every executed attempt either returns or raises). -/
inductive RetryResult (α : Type) where
  | value (a : α)
  | raised (e : PyExc)
  | noneReturned
  deriving DecidableEq, Repr

/-- The `for attempt in range(retries)` loop, with `remaining` iterations
left, so the current loop index is `attempt = retries - remaining`.
Returns (result, back-off sleeps performed, number of `func` calls). -/
def retryAux {α : Type} (op : ℕ → Except PyExc α) (retries : ℕ) (backoff : ℚ) :
    (remaining : ℕ) → RetryResult α × List ℚ × ℕ
  | 0 => (.noneReturned, [], 0)
  | remaining + 1 =>
    let attempt := retries - (remaining + 1)
    match op attempt with
    | .ok a => (.value a, [], 1)
    | .error e =>
      if isTransient e then
        if attempt < retries - 1 then
          let w := backoff * 2 ^ attempt
          let r := retryAux op retries backoff remaining
          (r.1, w :: r.2.1, r.2.2 + 1)
        else (.raised e, [], 1)
      else (.raised e, [], 1)

/-- One invocation of the wrapper produced by `retry_on_failure()`:
`settings.retries` and `settings.backoff` are read at call time. -/
def retryCall {α : Type} (s : Settings) (op : ℕ → Except PyExc α) :
    RetryResult α × List ℚ × ℕ :=
  retryAux op s.retries s.backoff s.retries

/-! Section: `clients/base.py`, BaseClient -/

/-- The pandas DataFrame held in `self.metadata`, reduced to what
`BaseClient.get_sites` touches: the column names (for the
`SITE_COLUMN_NAME not in self.metadata` membership test, which in pandas
checks columns) and the values of the site-identifier column
(`self.metadata[SITE_COLUMN_NAME].tolist()`). -/
structure DataFrame where
  columns : List String
  siteValues : List String
  deriving DecidableEq, Repr

/-- Embeds `BaseClient._parse_start_and_end_times` (base.py lines 63-66):

```
def _parse_start_and_end_times(self, start, end):
    if start > end:
        raise ValueError(f'End date must be after start date')
    return start, end
```

Timestamps are modelled as integer UTC instants. -/
def baseParseStartEnd (start endT : ℤ) : Except PyExc (ℤ × ℤ) :=
  if endT < start then .error (.valueError "End date must be after start date")
  else .ok (start, endT)

/-- Embeds `Eaufrance_Client._parse_start_and_end_times` (eaufrance.py lines
31-48) first coerces each argument to a UTC `pd.Timestamp` and then calls
`super()._parse_start_and_end_times`.  With timestamps modelled as UTC
instants the coercion is the identity, so the override reduces to the
base check. -/
def eaufranceParseStartEnd (start endT : ℤ) : Except PyExc (ℤ × ℤ) :=
  baseParseStartEnd start endT

/-- The `sites` argument of `BaseClient.get_sites`: `None`, a single
string, or a list of strings. -/
inductive SitesArg where
  | noneArg
  | str (s : String)
  | list (l : List String)
  deriving DecidableEq, Repr

/-- Worker for `pyDedup`: `seen` is the set of keys already emitted. -/
def pyDedupGo (seen : List String) : List String → List String
  | [] => []
  | x :: xs => if x ∈ seen then pyDedupGo seen xs else x :: pyDedupGo (x :: seen) xs

/-- Embeds `list(dict.fromkeys(sites))` (base.py line 129): drop duplicates,
keeping the first occurrence of each value in order. -/
def pyDedup (l : List String) : List String := pyDedupGo [] l

/-- Embeds `BaseClient.get_sites` (base.py lines 112-134):

```
if sites is None:
    sites = []
if isinstance(sites, str):
    sites = [sites]
sites = list(sites)
if sites_from_metadata:
    if not self.metadata:
        raise ValueError(f'No metadata is available!')
    if self.SITE_COLUMN_NAME not in self.metadata:
        raise ValueError(...)
    sites += self.metadata[self.SITE_COLUMN_NAME].tolist()
sites = list(dict.fromkeys(sites))
if not sites:
    raise ValueError("No sites provided. Pass `sites` or set `sites_from_metadata=True`.")
return sites
```

Note on `if not self.metadata:`: when `self.metadata` is `None` the
branch raises the "No metadata" error; when it is a pandas DataFrame,
evaluating `bool(DataFrame)` itself raises
`ValueError("The truth value of a DataFrame is ambiguous. ...")`, for any
DataFrame.  Consequently the column check, the metadata merge on line 128
and everything after it are unreachable whenever
`sites_from_metadata=True`. -/
def get_sites (siteColumnName : String) (metadata : Option DataFrame)
    (sitesArg : SitesArg) (sites_from_metadata : Bool) :
    Except PyExc (List String) :=
  let sites : List String :=
    match sitesArg with
    | .noneArg => []
    | .str s => [s]
    | .list l => l
  if sites_from_metadata then
    match metadata with
    | none => .error (.valueError "No metadata is available!")
    | some df =>
      -- bool(DataFrame) raises before the intended check can run;
      -- `siteColumnName` and `df` are never consulted
      let _ := siteColumnName
      let _ := df
      .error (.valueError "The truth value of a DataFrame is ambiguous")
  else
    let sites := pyDedup sites
    if sites.isEmpty then
      .error (.valueError "No sites provided. Pass sites or set sites_from_metadata=True.")
    else .ok sites

/-- A CSV file on disk as produced by `df.to_csv`: whether it starts with
a header row, and its data rows. -/
structure CsvFile (ρ : Type) where
  header : Bool
  rows : List ρ
  deriving DecidableEq, Repr

/-- Embeds `BaseClient._write_data` (base.py lines 84-95) acting on the target
file `<output_dir>/<site>.csv`, whose prior state is `existing`
(`none` = the file does not exist):

```
if output_path.exists():
    if overwrite:
        mode, header = "w", True
    elif append:
        mode, header = "a", False
    else:
        raise FileExistsError(...)
else:
    mode, header = "w", True
df.to_csv(output_path, mode=mode, index=False, header=header)
```
-/
def write_data {ρ : Type} (existing : Option (CsvFile ρ)) (df : List ρ)
    (overwrite append : Bool) : Except PyExc (CsvFile ρ) :=
  match existing with
  | some f =>
    if overwrite then .ok ⟨true, df⟩
    else if append then .ok ⟨f.header, f.rows ++ df⟩
    else .error (.fileExistsError "already exists. Set overwrite=True or append=True.")
  | none => .ok ⟨true, df⟩

/-- The method names defined on `BaseClient` in base.py.  Python resolves
`self.write_data` in `get_data` (line 160) against this attribute set;
the class defines `_write_data` but no `write_data`, and no subclass adds
one. -/
def baseClientMethods : List String :=
  ["__init__", "_parse_mapped_argument", "_parse_start_and_end_times",
   "_parse_arguments", "_write_metadata", "_write_data", "get_metadata",
   "get_data_single_site", "get_sites", "get_data"]

/-- Python attribute lookup on a `BaseClient` instance. -/
def pyGetAttr (name : String) : Except PyExc Unit :=
  if name ∈ baseClientMethods then .ok () else .error (.attributeError name)

/-- The per-site loop of `BaseClient.get_data` (base.py lines 156-162):

```
for site in sites:
    time.sleep(0.5)
    df = self.get_data_single_site(site, **args)
    if write:
        self.write_data(output_dir, site, df, overwrite, append)
    data[site] = df
    progress.update(task, advance=1)
```

`fetchSite` is `get_data_single_site`; the second component counts its
invocations (the network requests issued).  The fixed `time.sleep(0.5)`
pacing and the progress display are not modelled.  When `write` is true
the attribute lookup `self.write_data` is performed after the first fetch
and raises `AttributeError`, aborting the loop; the `.ok` branch of that
lookup transcribes what the loop would do next and is unreachable. -/
def getDataLoop {ρ : Type} (fetchSite : String → List ρ) (write : Bool) :
    List String → Except PyExc (List (String × List ρ)) × ℕ
  | [] => (.ok [], 0)
  | site :: rest =>
    let df := fetchSite site
    if write then
      match pyGetAttr "write_data" with
      | .error e => (.error e, 1)
      | .ok _ =>
        let r := getDataLoop fetchSite write rest
        ((r.1).map (fun l => (site, df) :: l), r.2 + 1)
    else
      let r := getDataLoop fetchSite write rest
      ((r.1).map (fun l => (site, df) :: l), r.2 + 1)

/-- Embeds `BaseClient.get_data` (base.py lines 136-164), parameterised by the
(possibly overridden) start/end parser of the client variant and by the
already-resolved outcome of `get_sites`: site resolution runs first, then
argument normalisation, and only then the per-site fetch loop, so a
normalisation error means zero fetches. -/
def clientGetData {ρ : Type} (parseTimes : ℤ → ℤ → Except PyExc (ℤ × ℤ))
    (sitesResult : Except PyExc (List String)) (start endT : ℤ)
    (fetch : String → ℤ → ℤ → List ρ) (write : Bool) :
    Except PyExc (List (String × List ρ)) × ℕ :=
  match sitesResult with
  | .error e => (.error e, 0)
  | .ok sites =>
    match parseTimes start endT with
    | .error e => (.error e, 0)
    | .ok (s, e) => getDataLoop (fun site => fetch site s e) write sites

/-! Section: `clients/usgs.py`, NWIS_Client -/

/-- A calendar date, as carried by the `pd.Timestamp` arguments that
`NWIS_Client._parse_start_and_end_times` formats. -/
structure Date where
  year : ℕ
  month : ℕ
  day : ℕ
  deriving DecidableEq, Repr

/-- Chronological key of a date (valid for month < 100, day < 100). -/
def Date.key (d : Date) : ℕ := d.year * 10000 + d.month * 100 + d.day

/-- Zero-padded two-digit field of `strftime`. -/
def pad2 (n : ℕ) : String := if n < 10 then "0" ++ toString n else toString n

/-- Zero-padded four-digit year field of `strftime('%Y')`. -/
def pad4 (n : ℕ) : String :=
  if n < 10 then "000" ++ toString n
  else if n < 100 then "00" ++ toString n
  else if n < 1000 then "0" ++ toString n
  else toString n

/-- Embeds `ts.strftime('%Y-%m-%d')`. -/
def fmtDate (d : Date) : String :=
  pad4 d.year ++ "-" ++ pad2 d.month ++ "-" ++ pad2 d.day

/-- Embeds `NWIS_Client._parse_start_and_end_times` (usgs.py lines 58-63):

```
def _parse_start_and_end_times(self, start, end):
    if start:
        start = start.strftime('%Y-%m-%d')
    if end:
        end = end.strftime('%Y-%m-%d')
    return start, end
```

The override replaces the base-class ordering check entirely: it only
reformats (`None` is falsy and passes through) and can never raise. -/
def nwisParseStartEnd (start endT : Option Date) : Option String × Option String :=
  (start.map fmtDate, endT.map fmtDate)

/-- Embeds `BaseClient.get_data` as inherited by `NWIS_Client`: site resolution
and variable mapping succeed as given, time parsing uses the NWIS
override (which cannot fail), and the per-site loop then calls
`nwis.get_record` (modelled by `fetch`) once per site. -/
def nwisGetData {ρ : Type} (sites : List String) (start endT : Option Date)
    (fetch : String → Option String × Option String → List ρ) :
    Except PyExc (List (String × List ρ)) × ℕ :=
  let se := nwisParseStartEnd start endT
  getDataLoop (fun site => fetch site se) false sites

/-! Section: `clients/eaufrance.py`, Eaufrance_Client

`MAX_RECORDS = 20000`.  Timestamps are modelled as integer day numbers
(the requests are day-aligned; `(end.date() - start.date()).days` is then
`endT - start`, and `pd.Timedelta(days=k)` is `+ k`). -/

/-- The two station-metadata fields read by `get_data_single_site`
(eaufrance.py lines 91-92): `date_ouverture_station` and
`date_fermeture_station`.  `none` models a missing/falsy value, for which
the `if station_open:` / `if station_closed:` truthiness guards skip the
clamp. -/
structure StationMeta where
  dateOuverture : Option ℤ
  dateFermeture : Option ℤ
  deriving DecidableEq, Repr

/-- The daily-frequency `while` loop of `get_data_single_site`
(eaufrance.py lines 111-124):

```
chunk_start = start
all_data = []
while chunk_start <= end:
    chunk_end = min(chunk_start + pd.Timedelta(days=chunk_days), end)
    result = get_hydrometrie_obs_elab(..., date_debut_obs_elab=chunk_start,
                                      date_fin_obs_elab=chunk_end, ...)
    if len(result['data']) > 0:
        df = pd.DataFrame(result['data'])
        all_data.append(df)
    chunk_start = chunk_end + pd.Timedelta(days=1)
```

`fetch cs ce` is the records returned by the upstream helper for the
inclusive range `[cs, ce]`.  Returns `(all_data, issued fetch ranges in
order)`.  `cd` is `chunk_days`, a natural number because the loop is only
entered when `start <= end`, in which case
`chunk_days = min(20000, n_days) >= 0`. -/
def dailyLoop {ρ : Type} (fetch : ℤ → ℤ → List ρ) (cd : ℕ) (endT : ℤ) (cs : ℤ) :
    List (List ρ) × List (ℤ × ℤ) :=
  if _h : cs ≤ endT then
    let ce := min (cs + cd) endT
    let result := fetch cs ce
    let rest := dailyLoop fetch cd endT (ce + 1)
    ((if 0 < result.length then [result] else []) ++ rest.1, (cs, ce) :: rest.2)
  else ([], [])
termination_by (endT + 1 - cs).toNat
decreasing_by
  omega

/-- The inclusive date sub-ranges the daily loop fetches for a request
`[start, endT]`: `chunk_days = min(MAX_RECORDS, n_days)` with
`n_days = (end.date() - start.date()).days` (eaufrance.py lines 109-110),
then the loop above. -/
def eaufranceChunks {ρ : Type} (fetch : ℤ → ℤ → List ρ) (start endT : ℤ) :
    List (ℤ × ℤ) :=
  (dailyLoop fetch (min 20000 (endT - start)).toNat endT start).2

/-- Embeds `variable.endswith('J')` (eaufrance.py line 107).  For a one-character
suffix, Python endswith holds exactly when the last character is `J`. -/
def endsWithJ (s : String) : Bool := s.toList.getLast? == some 'J'

/-- The fetch phase of `Eaufrance_Client.get_data_single_site`
(eaufrance.py lines 107-144), after the metadata clamp: result is
`.ok (some rows)` for a returned DataFrame, `.ok none` for the `None`
no-data marker, paired with the list of issued fetch ranges.

In the daily branch (`variable` ends in `'J'`), the non-empty chunk
results are concatenated in loop order (`pd.concat(all_data)`), and if
every chunk was empty the function returns `None`.

In the monthly branch, one unchunked fetch over `[start, endT]` is
issued, and then `if len(all_data) > 0:` (line 139) reads the local
variable `all_data`, which is only ever assigned inside the daily branch;
Python raises `UnboundLocalError` on that read, in both the empty and
the non-empty case. -/
def eaufranceFetchPhase {ρ : Type} (varCode : String) (fetch : ℤ → ℤ → List ρ)
    (start endT : ℤ) : Except PyExc (Option (List ρ)) × List (ℤ × ℤ) :=
  if endsWithJ varCode then
    let r := dailyLoop fetch (min 20000 (endT - start)).toNat endT start
    if 0 < r.1.length then (.ok (some r.1.flatten), r.2) else (.ok none, r.2)
  else
    -- result = get_hydrometrie_obs_elab(code_entite=site,
    --   date_debut_obs_elab=start, date_fin_obs_elab=end, ...)
    -- is issued, then `len(all_data)` raises
    (.error (.unboundLocalError "all_data"), [(start, endT)])

/-- Embeds `Eaufrance_Client.get_data_single_site` (eaufrance.py lines 80-144):
the metadata window clamp (lines 89-105) followed by the fetch phase.

```
if self.metadata is not None:
    station_open = ...['date_ouverture_station']
    station_closed = ...['date_fermeture_station']
    if station_open:
        station_open = parse_time(station_open)
        start = max(start, station_open)
    if station_closed:
        station_closed = parse_time(station_closed)
        end = min(end, station_closed)
    if start > end:
        return None
```
-/
def eaufranceSingle {ρ : Type} (meta : Option StationMeta) (varCode : String)
    (fetch : ℤ → ℤ → List ρ) (start endT : ℤ) :
    Except PyExc (Option (List ρ)) × List (ℤ × ℤ) :=
  match meta with
  | some m =>
    let start :=
      match m.dateOuverture with
      | some o => max start o
      | none => start
    let endT :=
      match m.dateFermeture with
      | some c => min endT c
      | none => endT
    if endT < start then (.ok none, [])
    else eaufranceFetchPhase varCode fetch start endT
  | none => eaufranceFetchPhase varCode fetch start endT

/-! Section: `clients/eaufrance_helpers.py`, the `do_api_query` pagination loop -/

/-- One HTTP response in the pagination loop of `do_api_query`
(eaufrance_helpers.py lines 121-157): the status code, the JSON body
fields `count`, `data` and `next`. -/
structure ApiResponse (ρ : Type) where
  status : ℕ
  count : ℕ
  data : List ρ
  next : Option String
  deriving DecidableEq, Repr

/-- The `while True:` pagination loop of `do_api_query`, driven by the
scripted sequence of responses the transport will produce for the
successive `requests.get` calls.  `acc` is the accumulated `data` list
and `n` the number of requests issued so far; the result pairs the
outcome with the total number of requests issued.

```
while True:
    resp = requests.get(query, headers=headers)
    if resp.status_code >= 400:
        ... raise RuntimeError(...)
    else:
        content = resp.json()
        count = int(content.get("count", 0))
        if count > 20000:
            raise ValueError("Request exceeds API limit of 20000 records. "
                             "Use filters to reduce the number of records.")
        elif count == 0:
            data = []
            break
        data.extend(content.get("data", []))
        if resp.status_code == 206:
            query = content.get("next")
            if query is None:
                break
        elif resp.status_code == 200:
            break
```

A status below 400 other than 200/206 re-runs the loop with the same
query, consuming the next scripted response; an exhausted script models
the transport failing to answer (`requests.get` raising), i.e. a
`RequestException`.  The per-field 4xx error detail is collapsed into a
single `RuntimeError`. -/
def doApiLoop {ρ : Type} (acc : List ρ) (n : ℕ) :
    List (ApiResponse ρ) → Except PyExc (List ρ) × ℕ
  | [] => (.error .requestException, n)
  | resp :: rest =>
    if 400 ≤ resp.status then (.error (.runtimeError "Error on query"), n + 1)
    else if 20000 < resp.count then
      (.error (.valueError "Request exceeds API limit of 20000 records. Use filters to reduce the number of records."), n + 1)
    else if resp.count = 0 then (.ok [], n + 1)
    else
      let acc := acc ++ resp.data
      if resp.status = 206 then
        match resp.next with
        | none => (.ok acc, n + 1)
        | some _ => doApiLoop acc (n + 1) rest
      else if resp.status = 200 then (.ok acc, n + 1)
      else doApiLoop acc (n + 1) rest

/-- Embeds `do_api_query` for a validated parameter set: the pagination loop
started with an empty accumulator. -/
def do_api_query {ρ : Type} (script : List (ApiResponse ρ)) :
    Except PyExc (List ρ) × ℕ :=
  doApiLoop [] 0 script

/-! Section: helper lemmas about the retry loop, shared by several
claims below. -/

/-- Helper: an operation that fails transiently on every executed attempt
runs `m` attempts and then succeeds on the last one, performing one
back-off sleep per failed attempt. -/
theorem retryAux_eventually_ok {α : Type} (r : ℕ) (b : ℚ) (a : α) :
    ∀ m, 1 ≤ m → m ≤ r →
      retryAux (fun k => if k < r - 1 then .error .requestException else .ok a) r b m =
        (.value a, (List.range' (r - m) (m - 1)).map (fun i => b * 2 ^ i), m) := by
  intro m
  induction m with
  | zero => omega
  | succ m ih =>
    intro _ hmr
    rcases Nat.eq_zero_or_pos m with rfl | hm
    · have hatt : ¬ (r - 1 < r - 1) := by omega
      simp [retryAux, hatt]
    · have hlt : r - (m + 1) < r - 1 := by omega
      have hsucc : r - (m + 1) + 1 = r - m := by omega
      have hm2 : ∀ s : ℕ, List.range' s m = s :: List.range' (s + 1) (m - 1) := by
        intro s
        conv_lhs => rw [show m = (m - 1) + 1 by omega]
        rw [List.range'_succ]
      simp only [retryAux, hlt, if_true, isTransient, ih hm (by omega)]
      simp only [Nat.add_sub_cancel, hm2 (r - (m + 1)), hsucc, List.map_cons]

/-- Helper: an operation that fails transiently on every attempt performs
one back-off sleep per non-final attempt and then re-raises the last
exception. -/
theorem retryAux_always_transient {α : Type} (r : ℕ) (b : ℚ) :
    ∀ m, 1 ≤ m → m ≤ r →
      retryAux (fun _ => (.error .requestException : Except PyExc α)) r b m =
        (.raised .requestException,
         (List.range' (r - m) (m - 1)).map (fun i => b * 2 ^ i), m) := by
  intro m
  induction m with
  | zero => omega
  | succ m ih =>
    intro _ hmr
    rcases Nat.eq_zero_or_pos m with rfl | hm
    · have hatt : ¬ (r - 1 < r - 1) := by omega
      simp [retryAux, hatt]
    · have hlt : r - (m + 1) < r - 1 := by omega
      have hsucc : r - (m + 1) + 1 = r - m := by omega
      have hm2 : ∀ s : ℕ, List.range' s m = s :: List.range' (s + 1) (m - 1) := by
        intro s
        conv_lhs => rw [show m = (m - 1) + 1 by omega]
        rw [List.range'_succ]
      simp only [retryAux, hlt, if_true, isTransient, ih hm (by omega)]
      simp only [Nat.add_sub_cancel, hm2 (r - (m + 1)), hsucc, List.map_cons]

/-- Helper: an exception that is not a `RequestException` is not caught by
the retry wrapper; it propagates after a single attempt, with no sleeps. -/
theorem retry_nontransient {α : Type} (rl : ℚ) (r : ℕ) (b : ℚ) (e : PyExc)
    (he : isTransient e = false) (hr : 1 ≤ r) :
    retryCall (⟨rl, r, b⟩ : Settings) (fun _ => (.error e : Except PyExc α)) =
      (.raised e, [], 1) := by
  obtain ⟨r, rfl⟩ : ∃ n, r = n + 1 := ⟨r - 1, by omega⟩
  simp [retryCall, retryAux, he]

/-! Section: the claims. -/

/-- Claim C1, counterexample: the claim says every client variant rejects
`start > end` before any network request, but the NWIS variant does not.
With `start = 2020-05-01 > end = 2020-01-01`, `NWIS_Client` reaches the
per-site loop and issues one `nwis.get_record` request (request count 1,
result returned normally, no validation error). -/
theorem c1_nwis_skips_start_end_validation :
    Date.key ⟨2020, 1, 1⟩ < Date.key ⟨2020, 5, 1⟩ ∧
    nwisGetData ["01646500"] (some ⟨2020, 5, 1⟩) (some ⟨2020, 1, 1⟩)
        (fun _ _ => [(1:ℤ)]) =
      (.ok [("01646500", [1])], 1) :=
  ⟨by decide, rfl⟩

/-- Claim C1, amended: for the Eaufrance and BOM clients (BOM inherits the
base parser, Eaufrance coerces to UTC and then delegates to it), a request
with `start > end` is rejected with `ValueError` during argument
normalisation, before any network request is issued (fetch count 0); the
NWIS override merely reformats both timestamps to `YYYY-MM-DD` and never
rejects. -/
theorem c1_start_after_end_rejected (s e : ℤ) (fetch : String → ℤ → ℤ → List ℤ)
    (w : Bool) (d1 d2 : Date) (h : e < s) :
    clientGetData baseParseStartEnd (.ok ["X"]) s e fetch w =
      (.error (.valueError "End date must be after start date"), 0) ∧
    clientGetData eaufranceParseStartEnd (.ok ["X"]) s e fetch w =
      (.error (.valueError "End date must be after start date"), 0) ∧
    nwisParseStartEnd (some d1) (some d2) = (some (fmtDate d1), some (fmtDate d2)) := by
  refine ⟨?_, ?_, rfl⟩ <;>
    simp [clientGetData, baseParseStartEnd, eaufranceParseStartEnd, h]

/-- Witness for C1 amended, at `start = 5 > end = 1` and concrete dates. -/
theorem c1_start_after_end_rejected_witness :
    clientGetData baseParseStartEnd (.ok ["X"]) 5 1 (fun _ _ _ => [(0:ℤ)]) false =
      (.error (.valueError "End date must be after start date"), 0) ∧
    clientGetData eaufranceParseStartEnd (.ok ["X"]) 5 1 (fun _ _ _ => [(0:ℤ)]) false =
      (.error (.valueError "End date must be after start date"), 0) ∧
    nwisParseStartEnd (some ⟨2020, 5, 1⟩) (some ⟨2020, 1, 1⟩) =
      (some (fmtDate ⟨2020, 5, 1⟩), some (fmtDate ⟨2020, 1, 1⟩)) :=
  c1_start_after_end_rejected 5 1 (fun _ _ _ => [(0:ℤ)]) false
    ⟨2020, 5, 1⟩ ⟨2020, 1, 1⟩ (by decide)

/-- Claim C2: the claim says the enforced minimum inter-call interval is
`1/settings.rate_limit` as read at invocation time.  In the code the
interval is fixed when the decorator is applied: with
`settings.rate_limit = 1` at decoration time, the captured interval is 1
second, and a wrapper invocation entered at time 100 with
`last_called = 100` starts the wrapped function at time 101 — a gap of 1
second — even though settings now carry `rate_limit = 100`, for which a
per-invocation re-read would enforce a gap of `1/100`.  The wrapper model
(`rateLimitedCall`) takes no settings argument at all because the wrapper
body references only the closed-over `interval`. -/
theorem c2_rate_limit_read_at_decoration_time :
    rateLimitedInterval none ⟨1, 5, 1/2⟩ = 1 ∧
    rateLimitedCall (rateLimitedInterval none ⟨1, 5, 1/2⟩) ⟨100⟩ 100 = (101, ⟨101⟩) ∧
    (101 : ℚ) - 100 ≠ 1 / Settings.rate_limit ⟨100, 5, 1/2⟩ := by
  refine ⟨?_, ?_, ?_⟩ <;> norm_num [rateLimitedInterval, rateLimitedCall, pyOr]

/-- Claim C3: with `write=True`, `BaseClient.get_data` fetches the first
site and then evaluates `self.write_data(...)`, but the class defines only
`_write_data`, so the attribute lookup raises `AttributeError` instead of
writing — after exactly one fetch.  The `_write_data` method itself does
implement the claimed semantics (overwrite rewrites the file with a
header, append extends the rows without touching the header, neither flag
on an existing file raises `FileExistsError`, and a fresh file is written
with a header), but `get_data` never reaches it. -/
theorem c3_get_data_write_attribute_error :
    clientGetData baseParseStartEnd (.ok ["X"]) 0 1 (fun _ _ _ => [(7:ℤ)]) true =
      (.error (.attributeError "write_data"), 1) ∧
    ¬ "write_data" ∈ baseClientMethods ∧ "_write_data" ∈ baseClientMethods ∧
    write_data (some ⟨true, [(1:ℤ)]⟩) [2] true false = .ok ⟨true, [2]⟩ ∧
    write_data (some ⟨true, [(1:ℤ)]⟩) [2] false true = .ok ⟨true, [1, 2]⟩ ∧
    write_data (some ⟨true, [(1:ℤ)]⟩) [2] false false =
      .error (.fileExistsError "already exists. Set overwrite=True or append=True.") ∧
    write_data (none : Option (CsvFile ℤ)) [2] false false = .ok ⟨true, [2]⟩ :=
  ⟨rfl, by decide, by decide, rfl, rfl, rfl, rfl⟩

/-- Claim C4: a monthly-frequency Eaufrance request (composite variable
code not ending in `J`, here `QmnM` = monthly mean discharge) issues
exactly one unchunked fetch covering `[start, end]` — but it then raises
`UnboundLocalError` on `len(all_data)` (eaufrance.py line 139; `all_data`
is only assigned in the daily branch) instead of returning the fetched
table or the no-data marker. -/
theorem c4_monthly_unbound_local_error (fetch : ℤ → ℤ → List ℤ) (s e : ℤ) :
    eaufranceSingle none "QmnM" fetch s e =
      (.error (.unboundLocalError "all_data"), [(s, e)]) := by
  simp [eaufranceSingle, eaufranceFetchPhase, endsWithJ]

/-- Claim C5: the claim says `get_sites` merges the explicit list with the
metadata sites into `["A","B","C"]`.  In the code, any call with
`sites_from_metadata=True` raises before the merge: with metadata absent
it raises the "No metadata" error, and with a metadata DataFrame present
the truthiness test `if not self.metadata:` itself raises pandas'
ambiguous-truth-value `ValueError`, so the merge on line 128 is
unreachable.  The deduplication that the reachable (non-metadata) path
performs is first-occurrence order-preserving, and an empty result raises
the hard error, as claimed. -/
theorem c5_get_sites_metadata_merge_unreachable :
    get_sites "site_no" (some ⟨["site_no"], ["B", "C"]⟩) (.list ["A", "B", "A"]) true =
      .error (.valueError "The truth value of a DataFrame is ambiguous") ∧
    get_sites "site_no" none (.list ["A", "B", "A"]) true =
      .error (.valueError "No metadata is available!") ∧
    get_sites "site_no" none (.list ["A", "B", "A", "B"]) false = .ok ["A", "B"] ∧
    get_sites "site_no" none .noneArg false =
      .error (.valueError "No sites provided. Pass sites or set sites_from_metadata=True.") :=
  ⟨rfl, rfl, rfl, rfl⟩

/-- Claim C6: for the retry wrapper with `retries = r >= 1` and back-off
`b` read from settings at call time: (1) an operation failing transiently
on the first `r-1` attempts and succeeding on attempt `r` returns the
success value after exactly `r-1` back-off sleeps of durations
`b*2^0, ..., b*2^(r-2)` and `r` invocations; (2) an operation failing
transiently on every attempt performs the same sleeps and then re-raises
the last exception unchanged; (3) a non-transient exception propagates
immediately: one invocation, no sleeps, no retry. -/
theorem c6_retry_backoff_contract (rl : ℚ) (r : ℕ) (hr : 1 ≤ r) (b : ℚ) (a : ℤ)
    (e : PyExc) (he : isTransient e = false) :
    retryCall (⟨rl, r, b⟩ : Settings)
        (fun k => if k < r - 1 then .error .requestException else .ok a) =
      (.value a, (List.range (r - 1)).map (fun k => b * 2 ^ k), r) ∧
    retryCall (⟨rl, r, b⟩ : Settings)
        (fun _ => (.error .requestException : Except PyExc ℤ)) =
      (.raised .requestException, (List.range (r - 1)).map (fun k => b * 2 ^ k), r) ∧
    retryCall (⟨rl, r, b⟩ : Settings) (fun _ => (.error e : Except PyExc ℤ)) =
      (.raised e, [], 1) := by
  refine ⟨?_, ?_, retry_nontransient rl r b e he hr⟩
  · rw [retryCall]
    rw [retryAux_eventually_ok r b a r hr le_rfl]
    simp [List.range_eq_range']
  · rw [retryCall]
    rw [retryAux_always_transient r b r hr le_rfl]
    simp [List.range_eq_range']

/-- Witness for C6, at `retries = 3`, `backoff = 1/2`, success value 42,
non-transient exception `ValueError`. -/
theorem c6_retry_backoff_contract_witness :
    retryCall (⟨1, 3, 1/2⟩ : Settings)
        (fun k => if k < 3 - 1 then .error .requestException else .ok (42:ℤ)) =
      (.value 42, (List.range (3 - 1)).map (fun k => (1/2 : ℚ) * 2 ^ k), 3) ∧
    retryCall (⟨1, 3, 1/2⟩ : Settings)
        (fun _ => (.error .requestException : Except PyExc ℤ)) =
      (.raised .requestException, (List.range (3 - 1)).map (fun k => (1/2 : ℚ) * 2 ^ k), 3) ∧
    retryCall (⟨1, 3, 1/2⟩ : Settings) (fun _ => (.error (.valueError "bad") : Except PyExc ℤ)) =
      (.raised (.valueError "bad"), [], 1) :=
  c6_retry_backoff_contract 1 3 (by decide) (1/2) 42 (.valueError "bad") (by decide)

/-- Claim C7: a daily-frequency Eaufrance request over the 50000-day range
`[0, 50000]` with record cap 20000 issues exactly 3 chunk fetches; their
inclusive sub-ranges are the explicit list
`[(0,20000), (20001,40001), (40002,50000)]`, each successive chunk starts
one day after the previous one ends (contiguous and non-overlapping, in
chronological order), each range is well-formed, and a day lies in some
chunk exactly when it lies in `[0, 50000]` (the union is the full range).
The result is the concatenation of the chunk results in chronological
order, or the `None` no-data marker when every chunk is empty. -/
theorem c7_daily_chunking_contract (fetch : ℤ → ℤ → List ℤ) :
    eaufranceSingle none "QmnJ" fetch 0 50000 =
      (let rows := fetch 0 20000 ++ fetch 20001 40001 ++ fetch 40002 50000
       ((if rows = [] then .ok none else .ok (some rows)),
        [(0, 20000), (20001, 40001), (40002, 50000)])) ∧
    ((eaufranceSingle none "QmnJ" fetch 0 50000).2).length = 3 ∧
    List.Chain' (fun p q : ℤ × ℤ => q.1 = p.2 + 1)
      ((eaufranceSingle none "QmnJ" fetch 0 50000).2) ∧
    (∀ p ∈ (eaufranceSingle none "QmnJ" fetch 0 50000).2, p.1 ≤ p.2) ∧
    (∀ d : ℤ, (0 ≤ d ∧ d ≤ 50000) ↔
      ∃ p ∈ (eaufranceSingle none "QmnJ" fetch 0 50000).2, p.1 ≤ d ∧ d ≤ p.2) := by
  have hJ : endsWithJ "QmnJ" = true := by decide
  have hcd : ((20000:ℤ) ⊓ (50000 - 0)).toNat = 20000 := rfl
  have hL : dailyLoop fetch 20000 50000 0 = (
      (if 0 < (fetch 0 20000).length then [fetch 0 20000] else []) ++
      ((if 0 < (fetch 20001 40001).length then [fetch 20001 40001] else []) ++
       (if 0 < (fetch 40002 50000).length then [fetch 40002 50000] else [])),
      [(0, 20000), (20001, 40001), (40002, 50000)]) := by
    simp [dailyLoop]
  have hC : (eaufranceSingle none "QmnJ" fetch 0 50000).2 =
      [(0, 20000), (20001, 40001), (40002, 50000)] := by
    simp only [eaufranceSingle, eaufranceFetchPhase, hJ, if_true, hcd, hL,
      apply_ite Prod.snd]
    simp
  have hfull : eaufranceSingle none "QmnJ" fetch 0 50000 =
      (let rows := fetch 0 20000 ++ fetch 20001 40001 ++ fetch 40002 50000
       ((if rows = [] then .ok none else .ok (some rows)),
        [(0, 20000), (20001, 40001), (40002, 50000)])) := by
    simp only [eaufranceSingle, eaufranceFetchPhase, hJ, if_true, hcd, hL]
    rcases Nat.eq_zero_or_pos (fetch 0 20000).length with ha | ha <;>
    rcases Nat.eq_zero_or_pos (fetch 20001 40001).length with hb | hb <;>
    rcases Nat.eq_zero_or_pos (fetch 40002 50000).length with hc | hc <;>
      simp_all [List.length_eq_zero, List.length_pos, List.append_eq_nil]
  refine ⟨hfull, by simp [hC], by rw [hC]; norm_num [List.chain'_cons],
    by rw [hC]; decide, ?_⟩
  intro d
  rw [hC]
  simp only [List.mem_cons, List.not_mem_nil, or_false]
  constructor
  · intro hd
    by_cases h1 : d ≤ 20000
    · exact ⟨(0, 20000), Or.inl rfl, by omega⟩
    · by_cases h2 : d ≤ 40001
      · exact ⟨(20001, 40001), Or.inr (Or.inl rfl), by omega⟩
      · exact ⟨(40002, 50000), Or.inr (Or.inr rfl), by omega⟩
  · rintro ⟨p, (rfl | rfl | rfl), hp⟩ <;> omega

/-- Claim C8: when station metadata with opening date `o` and closing date
`c` is present, `get_data_single_site` behaves exactly like a metadata-free
call on the clamped window `[max start o, min end c]`; and when that
clamped window is inverted, it returns the `None` no-data marker with an
empty list of issued fetches (no network request). -/
theorem c8_metadata_window_clamp (fetch : ℤ → ℤ → List ℤ) (v : String)
    (s e o c : ℤ) :
    eaufranceSingle (some ⟨some o, some c⟩) v fetch s e =
      if min e c < max s o then (.ok none, [])
      else eaufranceSingle none v fetch (max s o) (min e c) :=
  rfl

/-- Claim C9: whenever a successful response (status < 400) reports
`count > 20000`, the pagination loop raises the record-cap `ValueError`
immediately — whatever was accumulated before, whatever data and
continuation the response carries, and whatever further pages the server
would serve — issuing no further request beyond the one that produced
this response; and that `ValueError` is not a `RequestException`, so the
retry wrapper propagates it after a single attempt with no sleeps. -/
theorem c9_record_cap_fail_fast (acc : List ℤ) (n : ℕ) (resp : ApiResponse ℤ)
    (rest : List (ApiResponse ℤ)) (rl : ℚ) (r : ℕ) (b : ℚ)
    (h4 : resp.status < 400) (hc : 20000 < resp.count) (hr : 1 ≤ r) :
    doApiLoop acc n (resp :: rest) =
      (.error (.valueError "Request exceeds API limit of 20000 records. Use filters to reduce the number of records."), n + 1) ∧
    isTransient (.valueError "Request exceeds API limit of 20000 records. Use filters to reduce the number of records.") = false ∧
    retryCall (⟨rl, r, b⟩ : Settings)
        (fun _ => (.error (.valueError "Request exceeds API limit of 20000 records. Use filters to reduce the number of records.") : Except PyExc ℤ)) =
      (.raised (.valueError "Request exceeds API limit of 20000 records. Use filters to reduce the number of records."), [], 1) := by
  refine ⟨?_, rfl, retry_nontransient rl r b _ rfl hr⟩
  have h4n : ¬ (400 ≤ resp.status) := by omega
  simp [doApiLoop, h4n, hc]

/-- Witness for C9: a single 200 response reporting 20001 records, with
retry settings `retries = 3`. -/
theorem c9_record_cap_fail_fast_witness :
    doApiLoop ([] : List ℤ) 0 [⟨200, 20001, [5], none⟩] =
      (.error (.valueError "Request exceeds API limit of 20000 records. Use filters to reduce the number of records."), 1) ∧
    isTransient (.valueError "Request exceeds API limit of 20000 records. Use filters to reduce the number of records.") = false ∧
    retryCall (⟨1, 3, 1/2⟩ : Settings)
        (fun _ => (.error (.valueError "Request exceeds API limit of 20000 records. Use filters to reduce the number of records.") : Except PyExc ℤ)) =
      (.raised (.valueError "Request exceeds API limit of 20000 records. Use filters to reduce the number of records."), [], 1) :=
  c9_record_cap_fail_fast [] 0 ⟨200, 20001, [5], none⟩ [] 1 3 (1/2)
    (by decide) (by decide) (by decide)

/-- Claim C10: with `settings.retries = 0` the `for attempt in range(0)`
loop never runs, so a wrapped call returns Python `None` without invoking
the wrapped operation (0 invocations) and without raising. -/
theorem c10_zero_retries_returns_none (rl b : ℚ) (op : ℕ → Except PyExc ℤ) :
    retryCall (⟨rl, 0, b⟩ : Settings) op = (.noneReturned, [], 0) :=
  rfl

/-- Witness for C7, with a fetch oracle returning one record per chunk. -/
theorem c7_daily_chunking_contract_witness :
    eaufranceSingle none "QmnJ" (fun a _ => [a]) 0 50000 =
      (let rows := [(0:ℤ)] ++ [20001] ++ [40002]
       ((if rows = [] then .ok none else .ok (some rows)),
        [(0, 20000), (20001, 40001), (40002, 50000)])) ∧
    ((eaufranceSingle none "QmnJ" (fun a _ => [a]) 0 50000).2).length = 3 ∧
    List.Chain' (fun p q : ℤ × ℤ => q.1 = p.2 + 1)
      ((eaufranceSingle none "QmnJ" (fun a _ => [a]) 0 50000).2) ∧
    (∀ p ∈ (eaufranceSingle none "QmnJ" (fun a _ => [a]) 0 50000).2, p.1 ≤ p.2) ∧
    (∀ d : ℤ, (0 ≤ d ∧ d ≤ 50000) ↔
      ∃ p ∈ (eaufranceSingle none "QmnJ" (fun a _ => [a]) 0 50000).2,
        p.1 ≤ d ∧ d ≤ p.2) :=
  c7_daily_chunking_contract (fun a _ => [a])

/-- Witness for C8: station open at day 30 and closed at day 25, request
window `[0, 20]`, clamped window `[30, 20]` inverted, so no fetch and the
no-data marker. -/
theorem c8_metadata_window_clamp_witness :
    eaufranceSingle (some ⟨some 30, some 25⟩) "QmM" (fun _ _ => ([] : List ℤ)) 0 20 =
      if min (20:ℤ) 25 < max (0:ℤ) 30 then (.ok none, [])
      else eaufranceSingle none "QmM" (fun _ _ => ([] : List ℤ)) (max 0 30) (min 20 25) :=
  c8_metadata_window_clamp (fun _ _ => []) "QmM" 0 20 30 25

/-- Witness for C10: an operation that would succeed is never invoked when
`retries = 0`. -/
theorem c10_zero_retries_returns_none_witness :
    retryCall (⟨1, 0, 1/2⟩ : Settings) (fun _ => (.ok (9:ℤ) : Except PyExc ℤ)) =
      (.noneReturned, [], 0) :=
  c10_zero_retries_returns_none 1 (1/2) (fun _ => .ok 9)

end Rivapi
